import Mathlib

/-!
Verification development for a read-only ext2 volume interpreter
(`ext2.c`) and its user-space file-system bridge (`ext2fs.c`).

The C sources are shallowly embedded: the backing storage is a pure
function `Nat → Nat` giving the byte stored at each absolute offset
(reduced mod 256 at every access), positioned reads are modelled as
always transferring the requested bytes (the image is treated as
unbounded except where a claim is about short reads), and machine
arithmetic is `Nat` with explicit `% 2^32` / `% 2^64` at the points
where the C program computes in `uint32_t` / `uint64_t`.

The header `ext2.h` declaring the on-disk record types
(`superblock_t`, `group_desc_t`, `inode_t`, `dir_entry_t`) and the
helper `inode_file_size` is not part of the sources; those layouts are
modelled from the specification, which describes the standard ext2
format (each such definition is marked `Modelled from the spec:`).
-/

set_option autoImplicit false

namespace Ext2

/-- Modulus of `uint32_t` arithmetic. -/
def U32 : Nat := 4294967296

/-- Modulus of `uint64_t` arithmetic. -/
def U64 : Nat := 18446744073709551616

/-- Source constant `EXT2_INVALID_BLOCK_NUMBER = (uint32_t) -1`. -/
def EXT2_INVALID_BLOCK_NUMBER : Nat := 4294967295

/-- Modelled from the spec: the expected ext2 magic signature
(`0xEF53`); the constant lives in the missing header `ext2.h`. -/
def EXT2_SUPER_MAGIC : Nat := 61267

/-- A volume image: the byte stored at each absolute offset. -/
def Disk := Nat → Nat

/-- Byte fetched from the image (a stored byte is 8 bits wide). -/
def byteAt (disk : Disk) (pos : Nat) : Nat := disk pos % 256

/-- Little-endian 16-bit load, as reading two bytes into a `uint16_t`. -/
def load16 (disk : Disk) (pos : Nat) : Nat :=
  byteAt disk pos + 256 * byteAt disk (pos + 1)

/-- Little-endian 32-bit load, as reading four bytes into a `uint32_t`. -/
def load32 (disk : Disk) (pos : Nat) : Nat :=
  byteAt disk pos + 256 * byteAt disk (pos + 1) +
    65536 * byteAt disk (pos + 2) + 16777216 * byteAt disk (pos + 3)

/-- Value of `(uint64_t)(int)n` applied to the `uint64_t` value `n`:
truncate to 32 bits, reinterpret as signed, sign-extend to 64 bits.
Used by `read_file_block`, which casts the block index through `int`. -/
def i32cast (n : Nat) : Nat :=
  if n % U32 < 2147483648 then n % U32 else U64 - (U32 - n % U32)

/-- Modelled from the spec: the fields of `superblock_t` that the
sources read (the struct itself is declared in the missing header). -/
structure Superblock where
  s_blocks_count : Nat
  s_log_block_size : Nat
  s_blocks_per_group : Nat
  s_inodes_per_group : Nat
  s_magic : Nat
  s_inode_size : Nat

/-- Modelled from the spec: the group-descriptor field the sources
read (block number of the group's inode table). -/
structure GroupDesc where
  bg_inode_table : Nat

instance : Inhabited GroupDesc := ⟨⟨0⟩⟩

/-- Modelled from the spec: the fields of `inode_t` that the sources
read — mode, 32-bit byte size (the reference uses only the low size
half), the 12 direct block slots and the three indirect slots. -/
structure Inode where
  i_mode : Nat
  i_size : Nat
  i_block : List Nat
  i_block_1ind : Nat
  i_block_2ind : Nat
  i_block_3ind : Nat

instance : Inhabited Inode := ⟨⟨0, 0, List.replicate 12 0, 0, 0, 0⟩⟩

/-- Modelled from the spec: the fields of `dir_entry_t` the sources
read — inode number, record length, and the name as a NUL-terminated
string. -/
structure DirEnt where
  de_inode_no : Nat
  de_rec_len : Nat
  de_name : List Char

/-- The in-memory `volume_t`: image handle plus bootstrap state. -/
structure Volume where
  disk : Disk
  block_size : Nat
  volume_size : Nat
  num_groups : Nat
  super : Superblock
  groups : List GroupDesc

/-- Absolute position computed by `read_block`:
`(volume->block_size * block_no) + offset` in `uint32_t` arithmetic. -/
def read_block_pos (block_size block_no offset : Nat) : Nat :=
  (block_size * block_no + offset) % U32

/-- Positioned read that always transfers `size` bytes (the model of a
`pread` that does not fail; short reads at end of image only matter
for `open_volume_file`, which uses `preadCount`). -/
def pread (disk : Disk) (size pos : Nat) : List Nat :=
  (List.range size).map fun k => byteAt disk (pos + k)

/-- Source `read_block` (ext2.c:106): a single `pread` of `size`
bytes at `block_size * block_no + offset`. Despite its documentation,
it has no sparse-block handling: block number 0 is treated as any
other position. -/
def read_block (vol : Volume) (block_no offset size : Nat) : List Nat :=
  pread vol.disk size (read_block_pos vol.block_size block_no offset)

/-- Source `read_ind_block_entry` (ext2.c:149): loads the 4-byte entry
at `index * 4` inside the indirect block, then guards `blockNum < 0`
on the `uint32_t` value — a vacuous test, mirrored here by `Nat`
comparison with 0. The return value of the inner `read_block` is
ignored by the C code, exactly as here. -/
def read_ind_block_entry (vol : Volume) (ind_block_no index : Nat) : Nat :=
  let blockNum := load32 vol.disk
    (read_block_pos vol.block_size ind_block_no (index * 4 % U32))
  if blockNum < 0 then EXT2_INVALID_BLOCK_NUMBER else blockNum

/-- Source `get_inode_block_no` (ext2.c:183). Guards and indirect
indices follow the C expressions verbatim, with `% U32` inserted where
the C computes in `uint32_t` and the value can exceed 32 bits
(products of `block_size / 4`; sums after them; values passed to the
`uint32_t` parameter `index`). `P + 12` and `P + 1` cannot wrap for a
`uint32_t` block size and carry no mod. Subtractions occur only in
branches whose guard makes them exact, so `Nat` subtraction agrees
with the C `uint64_t` subtraction there. -/
def get_inode_block_no (vol : Volume) (inode : Inode) (block_idx : Nat) : Nat :=
  let P := vol.block_size / 4
  if block_idx < 12 then
    inode.i_block.getD block_idx 0
  else if block_idx < P + 12 then
    read_ind_block_entry vol inode.i_block_1ind ((block_idx - 12) % U32)
  else if block_idx < ((P + 1) * P % U32 + 12) % U32 then
    let indBlockNo := read_ind_block_entry vol inode.i_block_2ind
      ((block_idx - P + 12) / P % U32)
    read_ind_block_entry vol indBlockNo ((block_idx - (P + 12)) % P % U32)
  else if block_idx < (((P + 1) * P % U32 + 1) * P % U32 + 12) % U32 then
    let indBlockNo2 := read_ind_block_entry vol inode.i_block_3ind
      ((block_idx - (12 + (P + 1) * P % U32) % U32) / (P * P % U32) % U32)
    let indBlockNo1 := read_ind_block_entry vol indBlockNo2
      ((block_idx - (12 + (P + 1) * P % U32) % U32) % (P * P % U32) /
        (vol.block_size * vol.block_size % U32) % U32)
    let initialFactor :=
      (block_idx - (12 + (P + 1) * P % U32) % U32) % (P * P % U32) % U32
    read_ind_block_entry vol indBlockNo1 (initialFactor % P % U32)
  else
    EXT2_INVALID_BLOCK_NUMBER

/-- Every 32-bit load is below `2^32`. -/
theorem load32_lt (disk : Disk) (pos : Nat) : load32 disk pos < U32 := by
  have h0 : byteAt disk pos < 256 := Nat.mod_lt _ (by norm_num)
  have h1 : byteAt disk (pos + 1) < 256 := Nat.mod_lt _ (by norm_num)
  have h2 : byteAt disk (pos + 2) < 256 := Nat.mod_lt _ (by norm_num)
  have h3 : byteAt disk (pos + 3) < 256 := Nat.mod_lt _ (by norm_num)
  unfold load32 U32
  omega

/-- C9: in `read_ind_block_entry` the documented error branch is dead:
`blockNum` is an unsigned 32-bit value, so the guard `blockNum < 0`
never holds and the function always returns the 4 bytes loaded from
the indirect block (a value below `2^32`); it never returns
`EXT2_INVALID_BLOCK_NUMBER` through that branch. -/
theorem read_ind_block_entry_error_branch_dead (vol : Volume)
    (ind_block_no index : Nat) :
    read_ind_block_entry vol ind_block_no index =
      load32 vol.disk
        (read_block_pos vol.block_size ind_block_no (index * 4 % U32)) ∧
    load32 vol.disk
        (read_block_pos vol.block_size ind_block_no (index * 4 % U32)) < U32 := by
  refine ⟨?_, load32_lt _ _⟩
  unfold read_ind_block_entry
  simp

/-- C6: for every volume and inode, any logical block index at or
beyond `12 + P + P^2 + P^3` (with `P = block_size / 4`) makes
`get_inode_block_no` return `EXT2_INVALID_BLOCK_NUMBER`, independent
of the block size. -/
theorem get_inode_block_no_invalid_beyond_triple (vol : Volume) (inode : Inode)
    (block_idx : Nat)
    (h : 12 + vol.block_size / 4 + (vol.block_size / 4) ^ 2 +
      (vol.block_size / 4) ^ 3 ≤ block_idx) :
    get_inode_block_no vol inode block_idx = EXT2_INVALID_BLOCK_NUMBER := by
  unfold get_inode_block_no
  set P := vol.block_size / 4 with hP
  have hsq : P ^ 2 = P * P := sq P
  have hcube : P ^ 3 = P * P * P := by ring
  have h1 : ¬ block_idx < 12 := by omega
  have h2 : ¬ block_idx < P + 12 := by omega
  have g3le : ((P + 1) * P % U32 + 12) % U32 ≤ (P + 1) * P + 12 :=
    le_trans (Nat.mod_le _ _) (Nat.add_le_add_right (Nat.mod_le _ _) 12)
  have g3val : (P + 1) * P + 12 = P * P + P + 12 := by ring
  have h3 : ¬ block_idx < ((P + 1) * P % U32 + 12) % U32 := by
    rw [g3val] at g3le; omega
  have g4le : (((P + 1) * P % U32 + 1) * P % U32 + 12) % U32 ≤
      ((P + 1) * P + 1) * P + 12 := by
    calc (((P + 1) * P % U32 + 1) * P % U32 + 12) % U32
        ≤ ((P + 1) * P % U32 + 1) * P % U32 + 12 := Nat.mod_le _ _
      _ ≤ ((P + 1) * P % U32 + 1) * P + 12 :=
          Nat.add_le_add_right (Nat.mod_le _ _) 12
      _ ≤ ((P + 1) * P + 1) * P + 12 := by
          have : (P + 1) * P % U32 + 1 ≤ (P + 1) * P + 1 :=
            Nat.add_le_add_right (Nat.mod_le _ _) 1
          exact Nat.add_le_add_right (Nat.mul_le_mul_right P this) 12
  have g4val : ((P + 1) * P + 1) * P + 12 = P * P * P + P * P + P + 12 := by ring
  have h4 : ¬ block_idx < (((P + 1) * P % U32 + 1) * P % U32 + 12) % U32 := by
    rw [g4val] at g4le; omega
  rw [if_neg h1, if_neg h2, if_neg h3, if_neg h4]

/-- Witness for C6 at `block_size = 1024` (`P = 256`) and the first
out-of-range index `12 + 256 + 256^2 + 256^3 = 16843020`. -/
def zeroDisk : Disk := fun _ => 0

/-- Concrete volume used by witnesses: 1024-byte blocks, all-zero image. -/
def vol6 : Volume :=
  { disk := zeroDisk, block_size := 1024, volume_size := 0, num_groups := 0,
    super := ⟨0, 0, 0, 0, 0, 0⟩, groups := [] }

/-- Witness for C6: the hypothesis holds at the concrete input and the
resolver returns the invalid sentinel there. -/
theorem get_inode_block_no_invalid_beyond_triple_witness :
    12 + vol6.block_size / 4 + (vol6.block_size / 4) ^ 2 +
      (vol6.block_size / 4) ^ 3 ≤ 16843020 ∧
    get_inode_block_no vol6 default 16843020 = EXT2_INVALID_BLOCK_NUMBER :=
  ⟨by decide, get_inode_block_no_invalid_beyond_triple vol6 default 16843020
    (by decide)⟩

/-- Source `read_file_block` (ext2.c:247): block index from
`(int)(offset / block_size)` (cast through `int`, hence `i32cast`),
physical block from the resolver, in-block offset `offset %
block_size`, length clamped to the remainder of the block
(`size = max_size` stores a `uint64_t` into a `uint32_t`, hence the
`% U32`), then one `read_block` — with no special case for a resolved
block number of 0. -/
def read_file_block (vol : Volume) (inode : Inode) (offset max_size : Nat) :
    List Nat :=
  let blockIndex := i32cast (offset / vol.block_size)
  let blockNo := get_inode_block_no vol inode blockIndex
  let blockOffset := offset % vol.block_size
  let size := if vol.block_size - blockOffset < max_size then
    vol.block_size - blockOffset else max_size % U32
  read_block vol blockNo blockOffset size

/-- Number of bytes transferred by one `read_file_block` call: the
clamped size, independent of which physical block was resolved. -/
theorem read_file_block_length (vol : Volume) (inode : Inode)
    (offset max_size : Nat) :
    (read_file_block vol inode offset max_size).length =
      if vol.block_size - offset % vol.block_size < max_size then
        vol.block_size - offset % vol.block_size
      else max_size % U32 := by
  unfold read_file_block read_block pread
  simp

/-- Image for C1: the first four bytes of the volume (the area block
number 0 addresses) hold `0xAB`. -/
def disk1 : Disk := fun p => if p < 4 then 171 else 0

/-- Volume for C1. -/
def vol1 : Volume :=
  { disk := disk1, block_size := 1024, volume_size := 0, num_groups := 0,
    super := ⟨0, 0, 0, 0, 0, 0⟩, groups := [] }

/-- Inode for C1: direct slot 0 is a sparse hole (block number 0). -/
def inode1 : Inode := ⟨0, 4096, List.replicate 12 0, 0, 0, 0⟩

/-- C1 (code bug): reading 4 bytes at offset 0 of a file whose first
logical block is a hole (resolved physical block 0) does NOT produce
zero bytes: `read_block` has no sparse handling (despite its own
comment, ext2.c:89-92), so the code issues a `pread` at absolute
offset `1024 * 0 + 0 = 0` and returns the start-of-volume bytes. -/
theorem read_file_block_hole_not_zero_filled :
    read_file_block vol1 inode1 0 4 = [171, 171, 171, 171] ∧
    read_file_block vol1 inode1 0 4 ≠ List.replicate 4 0 := by
  constructor
  · rfl
  · decide

/-- Image for C4: block 1 is the double-indirect block; its entry 0
points at block 5 and its entry 1 at block 6. Entry 232 of block 5
holds 77, entry 232 of block 6 holds 88. -/
def disk4 : Disk := fun p =>
  if p = 1024 then 5 else if p = 1028 then 6
  else if p = 6048 then 77 else if p = 7072 then 88 else 0

/-- Volume for C4. -/
def vol4 : Volume :=
  { disk := disk4, block_size := 1024, volume_size := 0, num_groups := 0,
    super := ⟨0, 0, 0, 0, 0, 0⟩, groups := [] }

/-- Inode for C4: the double-indirect slot points at block 1. -/
def inode4 : Inode := ⟨0, 0, List.replicate 12 0, 0, 1, 0⟩

/-- Modelled from the spec: double-indirect resolution as the spec
states it — outer entry at `(index - 12 - P) / P` inside the inode's
double-indirect block, inner entry at `(index - 12 - P) % P` inside
the block the outer entry names (`P = block_size / 4`). Used only to
compare the claimed algorithm with the source's. -/
def resolve_double_indirect_spec (vol : Volume) (inode : Inode)
    (block_idx : Nat) : Nat :=
  let P := vol.block_size / 4
  read_ind_block_entry vol
    (read_ind_block_entry vol inode.i_block_2ind ((block_idx - 12 - P) / P))
    ((block_idx - 12 - P) % P)

/-- C4 (code bug): at `block_size = 1024` (`P = 256`) and logical
index 500, the source computes the outer index as
`(block_idx - P + 12) / P = 1` — the parentheses around `P + 12` are
missing (compare ext2.c:207 with the correctly parenthesised modulus
on ext2.c:209) — while the specified algorithm computes
`(block_idx - 12 - P) / P = 0`. The code therefore consults entry 1 of
the double-indirect block (block 6, value 88) instead of entry 0
(block 5, value 77). -/
theorem double_indirect_outer_index_mismatch :
    get_inode_block_no vol4 inode4 500 = 88 ∧
    resolve_double_indirect_spec vol4 inode4 500 = 77 := by
  constructor
  · rfl
  · rfl

/-- Modelled from the spec: layout of `superblock_t` (declared in the
missing header) at the standard ext2 offsets of the fields the sources
use: blocks count at +4, log block size at +24, blocks per group at
+32, inodes per group at +40, magic at +56 (16-bit), inode record size
at +88 (16-bit). -/
def parse_superblock (disk : Disk) (pos : Nat) : Superblock :=
  { s_blocks_count := load32 disk (pos + 4)
    s_log_block_size := load32 disk (pos + 24)
    s_blocks_per_group := load32 disk (pos + 32)
    s_inodes_per_group := load32 disk (pos + 40)
    s_magic := load16 disk (pos + 56)
    s_inode_size := load16 disk (pos + 88) }

/-- Modelled from the spec: layout of `group_desc_t` — the inode-table
block number sits at offset +8 of the 32-byte descriptor. -/
def parse_group_desc (disk : Disk) (pos : Nat) : GroupDesc :=
  { bg_inode_table := load32 disk (pos + 8) }

/-- Modelled from the spec: layout of `inode_t` at the standard ext2
offsets — mode at +0, low size half at +4, the 15 block slots from
+40 (12 direct, then single/double/triple indirect). -/
def parse_inode (disk : Disk) (pos : Nat) : Inode :=
  { i_mode := load16 disk pos
    i_size := load32 disk (pos + 4)
    i_block := (List.range 12).map fun k => load32 disk (pos + 40 + 4 * k)
    i_block_1ind := load32 disk (pos + 88)
    i_block_2ind := load32 disk (pos + 92)
    i_block_3ind := load32 disk (pos + 96) }

/-- Bytes a real `pread` transfers from an image of `file_size` bytes:
the requested count clamped at end of image (0 at or past the end).
Used by `open_volume_file`, whose short-read checks are the point of
claim C5. -/
def preadCount (file_size size pos : Nat) : Nat := min size (file_size - pos)

/-- Source `open_volume_file` (ext2.c:31), for an image that did open
(`fd >= 0`; the model receives the image and its byte size directly).
Reads 204 superblock bytes at offset 1024 and fails on a short read;
derives `block_size = 1024 << s_log_block_size`, `volume_size` (a
`uint32_t` product) and the rounded-up group count; reads one 32-byte
group descriptor at `1024 + block_size` and fails on a short read.
No other failure path exists: in particular `s_magic` is never
compared with anything (the C even notes "need to add a return null
case", ext2.c:70). -/
def open_volume_file (disk : Disk) (image_size : Nat) : Option Volume :=
  if preadCount image_size 204 1024 ≠ 204 then none
  else
    let sb := parse_superblock disk 1024
    let block_size := 1024 * 2 ^ sb.s_log_block_size % U32
    if preadCount image_size 32 (1024 + block_size) ≠ 32 then none
    else some
      { disk := disk
        block_size := block_size
        volume_size := block_size * sb.s_blocks_count % U32
        num_groups := sb.s_blocks_count / sb.s_blocks_per_group +
          if sb.s_blocks_count % sb.s_blocks_per_group ≠ 0 then 1 else 0
        super := sb
        groups := [parse_group_desc disk (1024 + block_size)] }

/-- Image for C5: a 4096-byte image whose superblock has 8 blocks of
1024 bytes, 8 blocks per group, and a magic field equal to 0 — not the
ext2 signature. -/
def disk5 : Disk := fun p =>
  if p = 1028 then 8 else if p = 1056 then 8 else 0

/-- C5 (code bug): `open_volume_file` accepts an image whose magic
field (0) differs from the expected ext2 signature and hands back a
usable `Volume`, although its own documentation (ext2.c:27-29)
promises NULL when `s_magic` does not hold the correct value. -/
theorem open_volume_file_ignores_magic :
    (open_volume_file disk5 4096).isSome = true ∧
    (parse_superblock disk5 1024).s_magic ≠ EXT2_SUPER_MAGIC := by
  constructor
  · rfl
  · decide

/-- Modelled from the spec: `inode_file_size` lives in the missing
header; the reference implementation uses only the low 32-bit size
field of the inode. -/
def inode_file_size (_vol : Volume) (inode : Inode) : Nat := inode.i_size

/-- The end-of-file clamp of `read_file_content` (ext2.c:294-295):
`if (offset + max_size > file_size) max_size = file_size - offset`,
with both the comparison and the subtraction in `uint64_t`
arithmetic. -/
def rfc_clamp (file_size offset max_size : Nat) : Nat :=
  if file_size < (offset + max_size) % U64 then (file_size + U64 - offset) % U64
  else max_size

/-- The `while (read_so_far < max_size)` loop of `read_file_content`
(ext2.c:297-302), fuelled because the C loop does not terminate for
every input: each pass reads one block span at `offset + read_so_far`
(a `uint64_t` sum), returns 0 if the block read transfers nothing, and
otherwise adds the transferred count to the `uint32_t` accumulator
`read_so_far` (hence `% U32`). The returned pair is the C return value
together with the bytes stored through the output buffer. -/
def read_file_content_loop (vol : Volume) (inode : Inode)
    (offset max_size : Nat) : Nat → Nat → List Nat → Option (Nat × List Nat)
  | 0, _, _ => none
  | fuel + 1, read_so_far, acc =>
    if read_so_far < max_size then
      if (read_file_block vol inode ((offset + read_so_far) % U64)
          (max_size - read_so_far)).length = 0 then
        some (0, acc)
      else
        read_file_content_loop vol inode offset max_size fuel
          ((read_so_far + (read_file_block vol inode
              ((offset + read_so_far) % U64)
              (max_size - read_so_far)).length) % U32)
          (acc ++ read_file_block vol inode ((offset + read_so_far) % U64)
            (max_size - read_so_far))
    else some (read_so_far, acc)

/-- Source `read_file_content` (ext2.c:290): clamp `max_size` at the
declared file size, then run the block loop. The fuel
`clamped + 1` is exact when the loop terminates (each pass transfers
at least one byte of the clamped budget) and the loop yields `none`
when the C code would spin without reaching its exit condition. -/
def read_file_content (vol : Volume) (inode : Inode) (offset max_size : Nat) :
    Option (Nat × List Nat) :=
  read_file_content_loop vol inode offset
    (rfc_clamp (inode_file_size vol inode) offset max_size)
    (rfc_clamp (inode_file_size vol inode) offset max_size + 1) 0 []

/-- One unfolding step of the content loop at positive fuel. -/
theorem read_file_content_loop_step (vol : Volume) (inode : Inode)
    (offset max_size fuel read_so_far : Nat) (acc : List Nat) :
    read_file_content_loop vol inode offset max_size (fuel + 1) read_so_far acc
      = if read_so_far < max_size then
          if (read_file_block vol inode ((offset + read_so_far) % U64)
              (max_size - read_so_far)).length = 0 then
            some (0, acc)
          else
            read_file_content_loop vol inode offset max_size fuel
              ((read_so_far + (read_file_block vol inode
                  ((offset + read_so_far) % U64)
                  (max_size - read_so_far)).length) % U32)
              (acc ++ read_file_block vol inode ((offset + read_so_far) % U64)
                (max_size - read_so_far))
        else some (read_so_far, acc) := rfl

/-- With a positive block size and a clamped budget below `2^32`, the
content loop terminates within its fuel and never reports more bytes
than the budget. -/
theorem rfc_loop_total (vol : Volume) (inode : Inode) (offset max_size : Nat)
    (hbs : 0 < vol.block_size) (hm : max_size < U32) :
    ∀ fuel read_so_far acc, read_so_far ≤ max_size →
      max_size - read_so_far < fuel →
      ∃ n l, read_file_content_loop vol inode offset max_size fuel
          read_so_far acc = some (n, l) ∧ n ≤ max_size := by
  intro fuel
  induction fuel with
  | zero => intro rsf acc h1 h2; omega
  | succ fuel ih =>
    intro rsf acc h1 h2
    by_cases h : rsf < max_size
    · have hlen := read_file_block_length vol inode ((offset + rsf) % U64)
        (max_size - rsf)
      have hbo : (offset + rsf) % U64 % vol.block_size < vol.block_size :=
        Nat.mod_lt _ hbs
      have hrem : (max_size - rsf) % U32 = max_size - rsf :=
        Nat.mod_eq_of_lt (by omega)
      have hpos : 0 < (read_file_block vol inode ((offset + rsf) % U64)
          (max_size - rsf)).length := by
        rw [hlen]; split <;> omega
      have hle : (read_file_block vol inode ((offset + rsf) % U64)
          (max_size - rsf)).length ≤ max_size - rsf := by
        rw [hlen]; split <;> omega
      have hmod : (rsf + (read_file_block vol inode ((offset + rsf) % U64)
          (max_size - rsf)).length) % U32
          = rsf + (read_file_block vol inode ((offset + rsf) % U64)
            (max_size - rsf)).length :=
        Nat.mod_eq_of_lt (by omega)
      obtain ⟨n, l, heq, hn⟩ := ih
        ((rsf + (read_file_block vol inode ((offset + rsf) % U64)
          (max_size - rsf)).length) % U32)
        (acc ++ read_file_block vol inode ((offset + rsf) % U64)
          (max_size - rsf))
        (by rw [hmod]; omega) (by rw [hmod]; omega)
      refine ⟨n, l, ?_, hn⟩
      rw [read_file_content_loop_step, if_pos h, if_neg (by omega)]
      exact heq
    · refine ⟨rsf, acc, ?_, h1⟩
      rw [read_file_content_loop_step, if_neg h]

/-- C7 (amended): provided the `uint64_t` sum `offset + max_size` does
not wrap, `read_file_content` with `offset ≤ file_size` terminates and
transfers at most `file_size - offset` bytes; in particular at
`offset = file_size` the budget clamps to 0 and the call returns 0
bytes, not an error. -/
theorem read_file_content_clamped_no_overflow (vol : Volume) (inode : Inode)
    (offset max_size : Nat) (hbs : 0 < vol.block_size)
    (hfs : inode.i_size < U32) (hoff : offset ≤ inode.i_size)
    (hsum : offset + max_size < U64) :
    ∃ n l, read_file_content vol inode offset max_size = some (n, l) ∧
      n ≤ inode.i_size - offset := by
  have hcl : rfc_clamp (inode_file_size vol inode) offset max_size ≤
      inode.i_size - offset := by
    unfold rfc_clamp inode_file_size
    rw [Nat.mod_eq_of_lt hsum]
    split
    · have hlt : inode.i_size < offset + max_size := by assumption
      have : (inode.i_size + U64 - offset) % U64 = inode.i_size - offset := by
        unfold U64 at *; omega
      omega
    · omega
  have hcl32 : rfc_clamp (inode_file_size vol inode) offset max_size < U32 := by
    have : inode.i_size - offset < U32 := by omega
    omega
  obtain ⟨n, l, heq, hn⟩ := rfc_loop_total vol inode offset
    (rfc_clamp (inode_file_size vol inode) offset max_size) hbs hcl32
    (rfc_clamp (inode_file_size vol inode) offset max_size + 1) 0 []
    (by omega) (by omega)
  exact ⟨n, l, heq, by omega⟩

/-- Inode with a one-byte file, used for C7. -/
def inode7 : Inode := ⟨0, 1, List.replicate 12 0, 0, 0, 0⟩

/-- Witness for C7 (amended): a 1-byte file read at offset 0 with a
5-byte request transfers at most 1 byte. -/
theorem read_file_content_clamped_no_overflow_witness :
    0 < vol6.block_size ∧ inode7.i_size < U32 ∧ 0 + 5 < U64 ∧
    ∃ n l, read_file_content vol6 inode7 0 5 = some (n, l) ∧
      n ≤ inode7.i_size - 0 :=
  ⟨by decide, by decide, by decide,
    read_file_content_clamped_no_overflow vol6 inode7 0 5 (by decide)
      (by decide) (by decide) (by decide)⟩

/-- At offset 1 of the 1-byte file with request `2^64 - 1`, the
`uint64_t` comparison `offset + max_size > file_size` wraps to
`0 > 1`, the clamp is skipped, and the loop can never reach its exit
condition: `read_so_far` is a `uint32_t` and stays below the huge
budget forever. The model therefore yields `none` for every fuel. -/
theorem rfc_loop_vol6_wrap_none : ∀ fuel read_so_far acc,
    read_so_far < U32 →
    read_file_content_loop vol6 inode7 1 (U64 - 1) fuel read_so_far acc
      = none := by
  intro fuel
  induction fuel with
  | zero => intro rsf acc h; rfl
  | succ fuel ih =>
    intro rsf acc h
    have h64 : (1 + rsf) % U64 = 1 + rsf := by
      apply Nat.mod_eq_of_lt; unfold U32 at h; unfold U64; omega
    have hlen := read_file_block_length vol6 inode7 ((1 + rsf) % U64)
      (U64 - 1 - rsf)
    have hbs : vol6.block_size = 1024 := rfl
    rw [hbs, h64] at hlen
    have hmod : (1 + rsf) % 1024 < 1024 := Nat.mod_lt _ (by norm_num)
    have hcond : 1024 - (1 + rsf) % 1024 < U64 - 1 - rsf := by
      unfold U32 at h; unfold U64; omega
    rw [if_pos hcond] at hlen
    have hpos : 0 < (read_file_block vol6 inode7 ((1 + rsf) % U64)
        (U64 - 1 - rsf)).length := by
      rw [h64, hlen]; omega
    rw [read_file_content_loop_step,
      if_pos (show rsf < U64 - 1 by unfold U32 at h; unfold U64; omega),
      if_neg (by omega)]
    exact ih _ _ (Nat.mod_lt _ (by unfold U32; omega))

/-- C7 counterexample: as stated, the claim fails at offset
`= file_size = 1` with requested length `2^64 - 1`: the call does not
return 0 bytes — the wrapped comparison skips the end-of-file clamp
and the loop never terminates. -/
theorem read_file_content_wrap_nonterminating :
    read_file_content vol6 inode7 1 (U64 - 1) = none := by
  have hcl : rfc_clamp (inode_file_size vol6 inode7) 1 (U64 - 1) = U64 - 1 := by
    unfold rfc_clamp inode_file_size
    have h1 : (1 + (U64 - 1)) % U64 = 0 := by unfold U64; omega
    rw [h1, if_neg (by omega)]
  unfold read_file_content
  rw [hcl]
  exact rfc_loop_vol6_wrap_none (U64 - 1 + 1) 0 [] (by unfold U32; omega)

/-- C10 (amended): for a call with `offset` strictly past the declared
file size and a non-wrapping `uint64_t` sum `offset + max_size`, the
clamp `file_size - offset` wraps modulo `2^64` to
`2^64 - (offset - file_size)` — at least `2^64 - offset`, and in
particular positive, so the read loop is entered with that enormous
budget instead of returning 0 bytes. -/
theorem rfc_clamp_wraps_past_eof (vol : Volume) (inode : Inode)
    (offset max_size : Nat) (h1 : inode_file_size vol inode < offset)
    (h2 : offset + max_size < U64) :
    rfc_clamp (inode_file_size vol inode) offset max_size
        = U64 - (offset - inode_file_size vol inode) ∧
      U64 - offset ≤ rfc_clamp (inode_file_size vol inode) offset max_size ∧
      0 < rfc_clamp (inode_file_size vol inode) offset max_size := by
  unfold rfc_clamp inode_file_size at *
  rw [Nat.mod_eq_of_lt h2, if_pos (by omega)]
  unfold U64 at *
  refine ⟨by omega, by omega, by omega⟩

/-- Inode with a 3-byte file, used by the C10 witness. -/
def inode10w : Inode := ⟨0, 3, List.replicate 12 0, 0, 0, 0⟩

/-- Witness for C10 (amended): at file size 3, offset 10, request 2,
the clamp becomes `2^64 - 7`. -/
theorem rfc_clamp_wraps_past_eof_witness :
    inode_file_size vol6 inode10w < 10 ∧ 10 + 2 < U64 ∧
    (rfc_clamp (inode_file_size vol6 inode10w) 10 2
        = U64 - (10 - inode_file_size vol6 inode10w) ∧
      U64 - 10 ≤ rfc_clamp (inode_file_size vol6 inode10w) 10 2 ∧
      0 < rfc_clamp (inode_file_size vol6 inode10w) 10 2) :=
  ⟨by decide, by decide,
    rfc_clamp_wraps_past_eof vol6 inode10w 10 2 (by decide) (by decide)⟩

/-- Inode with a 10-byte file, used by the C10 counterexample. -/
def inode10 : Inode := ⟨0, 10, List.replicate 12 0, 0, 0, 0⟩

/-- C10 counterexample: at file size 10, offset `2^64 - 5` (strictly
past end of file) and request 7, the `uint64_t` sum wraps to 2, the
guard `2 > 10` fails, and no clamp is computed at all: the call
attempts the original 7 bytes (and completes), not a length near
`2^64`. -/
theorem read_file_content_clamp_skipped_on_sum_wrap :
    rfc_clamp (inode_file_size vol6 inode10) (U64 - 5) 7 = 7 ∧
    read_file_content vol6 inode10 (U64 - 5) 7
      = some (7, List.replicate 7 0) := by
  constructor
  · rfl
  · rfl

/-- Source `read_inode` (ext2.c:126): group and in-group index from
the inode number, then one block read of `s_inode_size` bytes from the
group's inode table (the `int` product `inodeIndex * s_inode_size` is
passed to the `uint32_t` offset parameter). The bytes land in an
`inode_t`, modelled by parsing the record at the read position. -/
def read_inode (vol : Volume) (inode_no : Nat) : Inode :=
  parse_inode vol.disk (read_block_pos vol.block_size
    (vol.groups.getD ((inode_no - 1) / vol.super.s_inodes_per_group)
      default).bg_inode_table
    ((inode_no - 1) % vol.super.s_inodes_per_group *
      vol.super.s_inode_size % U32))

/-- Source `ext2_read` (ext2fs.c:289): loads the inode for the file
handle, then performs a single `read_block` whose in-block offset
argument is the whole file offset (`off_t` truncated to the `uint32_t`
parameter) and whose size is the whole request (`size_t` truncated
likewise) — no end-of-file clamp and no multi-block loop. -/
def ext2_read (vol : Volume) (fh size offset : Nat) : List Nat :=
  read_block vol
    (get_inode_block_no vol (read_inode vol fh) (offset / vol.block_size))
    (offset % U32) (size % U32)

/-- Image for C3: inode 5 (group 0, index 4, inode table at block 10,
record size 128, so at byte 10752) describes a 2048-byte file with
direct blocks 30 and 40. Block 40 (bytes 40960-40963) holds 2s; block
41 (bytes 41984-41987) holds 3s. -/
def disk3 : Disk := fun p =>
  if p = 10757 then 8 else if p = 10792 then 30 else if p = 10796 then 40
  else if 40960 ≤ p ∧ p < 40964 then 2
  else if 41984 ≤ p ∧ p < 41988 then 3 else 0

/-- Volume for C3. -/
def vol3 : Volume :=
  { disk := disk3, block_size := 1024, volume_size := 0, num_groups := 1,
    super := ⟨0, 0, 0, 16, 0, 128⟩, groups := [⟨10⟩] }

/-- C3 (code bug): reading 4 bytes at offset 1024 of the file behind
handle 5, `ext2_read` returns the bytes at disk position
`block_size * 40 + 1024` — it adds the whole file offset to the base
of the resolved block, crossing into the following physical block 41 —
while `read_file_content` on the same volume, inode, offset and size
returns logical block 1's bytes (physical block 40). The two transfer
different bytes, refuting the claimed equivalence. -/
theorem ext2_read_differs_from_read_file_content :
    ext2_read vol3 5 4 1024 = [3, 3, 3, 3] ∧
    read_file_content vol3 (read_inode vol3 5) 1024 4
      = some (4, [2, 2, 2, 2]) := by
  constructor
  · rfl
  · rfl

/-- NUL-terminated string starting at an image position (`de_name` is
consumed through `strcmp`, so the runtime copy ends at the first zero
byte; the bound 255 is the format's maximum name length). -/
def readCString (disk : Disk) : Nat → Nat → List Char
  | _, 0 => []
  | pos, fuel + 1 =>
    if byteAt disk pos = 0 then []
    else Char.ofNat (byteAt disk pos) :: readCString disk (pos + 1) fuel

/-- Modelled from the spec: layout of `dir_entry_t` — inode number at
+0, record length at +4 (16-bit), name from +8 (name length and file
type occupy +6/+7 and are not read by the sources). -/
def parse_dirent (disk : Disk) (pos : Nat) : DirEnt :=
  { de_inode_no := load32 disk pos
    de_rec_len := load16 disk (pos + 4)
    de_name := readCString disk (pos + 8) 255 }

/-- Image position that a `read_file_block` at the given file offset
reads from: the resolved physical block's base plus the in-block
offset. `follow_directory_entries` copies directory-entry bytes from
here into its `dir_entry_t`; the model parses the record at this
position (the C's two consecutive reads at one offset — first with the
previous record's length, then with the freshly read length — net to
this whenever the on-disk record lengths are self-consistent; the
byte-count truncation of the copy is not modelled). -/
def file_pos (vol : Volume) (inode : Inode) (offset : Nat) : Nat :=
  read_block_pos vol.block_size
    (get_inode_block_no vol inode (i32cast (offset / vol.block_size)))
    (offset % vol.block_size)

/-- The entry loop of `follow_directory_entries` (ext2.c:350-358),
fuelled because a record length of 0 would make the C loop spin:
while `offset < i_size`, read the entry at `offset`, stop with its
inode number if the visitor accepts it AND the caller passed a
non-NULL copy buffer, else advance by the record length. -/
def fde_loop (vol : Volume) (inode : Inode) (bufNonNull : Bool)
    (f : List Char → Nat → Bool) : Nat → Nat → Nat × Option DirEnt
  | _, 0 => (0, none)
  | offset, fuel + 1 =>
    if offset < inode.i_size then
      if f (parse_dirent vol.disk (file_pos vol inode offset)).de_name
          (parse_dirent vol.disk (file_pos vol inode offset)).de_inode_no
          && bufNonNull then
        ((parse_dirent vol.disk (file_pos vol inode offset)).de_inode_no,
          some (parse_dirent vol.disk (file_pos vol inode offset)))
      else
        fde_loop vol inode bufNonNull f
          (offset + (parse_dirent vol.disk
            (file_pos vol inode offset)).de_rec_len) fuel
    else (0, none)

/-- Source `follow_directory_entries` (ext2.c:333): reads the first
entry's record length from file offset 4, reads and tests entry 0,
then walks the remaining entries from offset `firstSize`. The stop
condition is the C's `(f(...) != 0) && (buffer != NULL)`: the visitor
result alone does not stop the walk. The returned pair is the C return
value together with the entry stored through `buffer` (if any). -/
def follow_directory_entries (vol : Volume) (inode : Inode)
    (bufNonNull : Bool) (f : List Char → Nat → Bool) : Nat × Option DirEnt :=
  if f (parse_dirent vol.disk (file_pos vol inode 0)).de_name
      (parse_dirent vol.disk (file_pos vol inode 0)).de_inode_no
      && bufNonNull then
    ((parse_dirent vol.disk (file_pos vol inode 0)).de_inode_no,
      some (parse_dirent vol.disk (file_pos vol inode 0)))
  else
    fde_loop vol inode bufNonNull f (load16 vol.disk (file_pos vol inode 4))
      (inode.i_size + 1)

/-- Source `find_file_in_directory` (ext2.c:386): the directory walk
with the exact-match visitor `compare_file_name` (ext2.c:363,
`!strcmp`) and the caller's non-NULL entry buffer. -/
def find_file_in_directory (vol : Volume) (inode : Inode)
    (name : List Char) : Nat × Option DirEnt :=
  follow_directory_entries vol inode true (fun n _ => n == name)

/-- Image for C8: a directory whose single 12-byte entry names "a"
with inode number 7, stored in block 50. -/
def disk8 : Disk := fun p =>
  if p = 51200 then 7 else if p = 51204 then 12
  else if p = 51208 then 97 else 0

/-- Volume for C8. -/
def vol8 : Volume :=
  { disk := disk8, block_size := 1024, volume_size := 0, num_groups := 0,
    super := ⟨0, 0, 0, 0, 0, 0⟩, groups := [] }

/-- Directory inode for C8: 12 declared bytes, data in block 50. -/
def inode8 : Inode := ⟨0, 12, 50 :: List.replicate 11 0, 0, 0, 0⟩

/-- C8 (code bug): with a NULL entry-copy buffer, a visitor match does
NOT stop the iteration — the stop test conjoins the visitor's result
with `buffer != NULL` (ext2.c:345,354) — so the walk runs off the end
and returns 0; the same call with a non-NULL buffer returns the
matched entry's inode number 7 as documented. -/
theorem follow_directory_entries_null_buffer_no_stop :
    follow_directory_entries vol8 inode8 false (fun n _ => n == ['a'])
        = (0, none) ∧
      (follow_directory_entries vol8 inode8 true
        (fun n _ => n == ['a'])).1 = 7 := by
  constructor
  · rfl
  · rfl

/-- Character of a C path string at an index: the byte there, or the
NUL terminator at and past the end of the string. -/
def cAt (path : List Char) (i : Nat) : Char := path.getD i (Char.ofNat 0)

/-- The component loop of `find_file_from_path` (ext2.c:434-472),
fuelled for evaluation (the C loop always halts: `i` grows by 1 each
pass and the walk ends once `path[i-1]` is the terminator, so
`path.length + 2` passes are never exceeded). State is the C's: scan
position `i`, component bounds `nameStart`/`nameIndex`, the current
inode record, and `currDir.de_inode_no` — updated only when a
directory lookup writes the entry buffer. On a component boundary: an
empty component breaks; a lookup returning 0 breaks; otherwise the
found inode is loaded and the bounds reset past the separator. The
function's result is the C return value `currDir.de_inode_no`. -/
def ffp_loop (vol : Volume) (path : List Char) :
    Nat → Nat → Nat → Nat → Inode → Nat → Nat
  | 0, _, _, _, _, currDirIno => currDirIno
  | fuel + 1, i, nameStart, nameIndex, currInode, currDirIno =>
    if cAt path (i - 1) ≠ Char.ofNat 0 then
      if cAt path i = '/' ∨ cAt path i = Char.ofNat 0 then
        if nameStart = nameIndex then currDirIno
        else
          match find_file_in_directory vol currInode
            ((path.drop nameStart).take (nameIndex - nameStart)) with
          | (currInodeNum, written) =>
            match written with
            | some e =>
              if currInodeNum = 0 then e.de_inode_no
              else ffp_loop vol path fuel (i + 1) (i + 1) (i + 1)
                (read_inode vol currInodeNum) e.de_inode_no
            | none =>
              if currInodeNum = 0 then currDirIno
              else ffp_loop vol path fuel (i + 1) (i + 1) (i + 1)
                (read_inode vol currInodeNum) currDirIno
      else ffp_loop vol path fuel (i + 1) nameStart (nameIndex + 1)
        currInode currDirIno
    else currDirIno

/-- Source `find_file_from_path` (ext2.c:410): requires a leading
separator, reads the root directory's inode record (the second record
of group 0's inode table) and seeds `currDir.de_inode_no = 2`, then
walks the components. Returns `currDir.de_inode_no`; the C also copies
the final inode through `dest_inode`, which no claim consumes. -/
def find_file_from_path (vol : Volume) (path : List Char) : Nat :=
  if cAt path 0 = '/' then
    ffp_loop vol path (path.length + 2) 1 1 1
      (parse_inode vol.disk (read_block_pos vol.block_size
        (vol.groups.getD 0 default).bg_inode_table vol.super.s_inode_size))
      2
  else 0

/-- Image for C2: root inode (second 128-byte record of the inode
table at block 10, i.e. at byte 10368) declares a 12-byte directory
stored in block 20, whose single entry names "." with inode 11. The
name "x" appears nowhere. -/
def disk2 : Disk := fun p =>
  if p = 10372 then 12 else if p = 10408 then 20
  else if p = 20480 then 11 else if p = 20484 then 12
  else if p = 20488 then 46 else 0

/-- Volume for C2. -/
def vol2 : Volume :=
  { disk := disk2, block_size := 1024, volume_size := 0, num_groups := 1,
    super := ⟨0, 0, 0, 16, 0, 128⟩, groups := [⟨10⟩] }

/-- C2 (code bug): resolving "/x" when the root directory holds no
entry "x" does not return 0. The lookup fails and the loop breaks
without later lookups, but the function then returns the stale
`currDir.de_inode_no` seeded to 2 for the root (ext2.c:425,476),
although its documentation (ext2.c:406-408) promises 0 when the file
does not exist. -/
theorem find_file_from_path_missing_name_returns_stale_inode :
    find_file_from_path vol2 ['/', 'x'] = 2 ∧
    find_file_from_path vol2 ['/', 'x'] ≠ 0 := by
  constructor
  · rfl
  · decide

end Ext2
